import Mathlib

/-!
Verification of the purchase-orchestration contract of the expo-iap example
client (`src/example/App.tsx`) against its specification.

The example app drives the `useIAP` hook of the expo-iap library.  The
library itself (Connection Manager, Catalog Sync, Purchase Dispatcher,
Purchase Event Channel, Receipt Validator) is not part of the source tree;
where a property concerns those components they are modelled from the
specification, and each such definition says so in its doc comment.
Definitions taken from `App.tsx` cite the corresponding lines.
-/

namespace ExpoIAP

/-- ConnectionState from spec §3: enum {Disconnected, Connecting, Connected}. -/
inductive ConnectionState
  | Disconnected
  | Connecting
  | Connected
deriving DecidableEq, Repr

/-- The two store platforms appearing in `App.tsx` (`item.platform === 'android' / 'ios'`). -/
inductive StorePlatform
  | ios
  | android
deriving DecidableEq, Repr

/-- ProductDescriptor from spec §3 / App.tsx lines 202-241: id, title, platform,
platform-specific price field (android `formattedPrice`, ios `displayPrice`). -/
structure ProductDescriptor where
  id : String
  title : String
  platform : StorePlatform
  price : String
deriving DecidableEq, Repr

/-- A pricing-phase entry of an android subscription offer
(App.tsx lines 250-252: `pricingPhaseList` items carry a `billingPeriod`). -/
structure PricingPhase where
  billingPeriod : String
deriving DecidableEq, Repr

/-- OfferDetail from spec §3 / App.tsx lines 246-267: offer id, optional offer
token, pricing phase list. -/
structure OfferDetail where
  offerId : String
  offerToken : Option String
  pricingPhaseList : List PricingPhase
deriving DecidableEq, Repr

/-- SubscriptionDescriptor from spec §3: like ProductDescriptor plus the
android offer sequence (empty / ignored on ios, which has a single implicit
offer). -/
structure SubscriptionDescriptor where
  id : String
  title : String
  platform : StorePlatform
  price : String
  subscriptionOfferDetails : List OfferDetail
deriving DecidableEq, Repr

/-- The error taxonomy of spec §7. -/
inductive IAPError
  | NotConnected
  | CatalogFetchFailed
  | PurchaseRequestRejected
  | PurchaseOutcomeError (reason : String)
  | SyncFailure (reason : String)
deriving DecidableEq, Repr

/-- Purchase type from App.tsx (`type: 'subs'` on subscription requests,
default in-app otherwise). -/
inductive PurchaseType
  | inapp
  | subs
deriving DecidableEq, Repr

/-- A selected subscription offer as passed by App.tsx lines 260-267:
`{sku, offerToken}`. -/
structure SubscriptionOffer where
  sku : String
  offerToken : String
deriving DecidableEq, Repr

/-- PurchaseIntent from spec §3: skus, purchase type, android offer tokens. -/
structure PurchaseIntent where
  skus : List String
  type : PurchaseType
  subscriptionOffers : List SubscriptionOffer
deriving DecidableEq, Repr

/-- A call issued to the store collaborator (spec §6 outputs). -/
inductive StoreCall
  | fetchProductsCall (ids : List String)
  | fetchSubscriptionsCall (ids : List String)
  | purchaseCall (skus : List String) (type : PurchaseType) (offers : List SubscriptionOffer)
deriving DecidableEq, Repr

/-- Modelled from the spec: Catalog Sync `fetchProducts` (§4.2) — the library
implementation is not in the source tree.  Precondition ConnectionState =
Connected, else fails with NotConnected and issues no store call; otherwise
queries the store collaborator (modelled as a partial map from SKU to
descriptor) with the requested id list and returns the descriptors the store
has.  Also returns the list of store-network calls issued. -/
def fetchProducts (conn : ConnectionState) (store : String → Option ProductDescriptor)
    (ids : List String) : Except IAPError (List ProductDescriptor) × List StoreCall :=
  if conn = ConnectionState.Connected then
    (Except.ok (ids.filterMap store), [StoreCall.fetchProductsCall ids])
  else
    (Except.error IAPError.NotConnected, [])

/-- Modelled from the spec: Catalog Sync `fetchSubscriptions` (§4.2), the
subscription counterpart of `fetchProducts`; the library implementation is not
in the source tree. -/
def fetchSubscriptions (conn : ConnectionState)
    (store : String → Option SubscriptionDescriptor) (ids : List String) :
    Except IAPError (List SubscriptionDescriptor) × List StoreCall :=
  if conn = ConnectionState.Connected then
    (Except.ok (ids.filterMap store), [StoreCall.fetchSubscriptionsCall ids])
  else
    (Except.error IAPError.NotConnected, [])

/-- An android subscription intent requires an offer token selection
(spec §4.3: "For subscriptions requiring an offer selection, `intent` must
carry exactly the offer tokens applicable to the platform"). -/
def requiresOfferToken (platform : StorePlatform) (t : PurchaseType) : Bool :=
  platform = StorePlatform.android && t = PurchaseType.subs

/-- Modelled from the spec: Purchase Dispatcher `requestPurchase` (§4.3) — the
library implementation is not in the source tree.  Fire-and-forget: the
synchronous return carries no purchase outcome, only acceptance (`Unit`) or a
synchronously reported precondition / request-shape error (§7).  Fails with
NotConnected unless Connected; fails with PurchaseRequestRejected when the
platform requires an offer token and the intent carries none; both failures
issue no store call.  Otherwise hands the request to the store. -/
def requestPurchase (conn : ConnectionState) (platform : StorePlatform)
    (intent : PurchaseIntent) : Except IAPError Unit × List StoreCall :=
  if conn ≠ ConnectionState.Connected then
    (Except.error IAPError.NotConnected, [])
  else if requiresOfferToken platform intent.type && intent.subscriptionOffers.isEmpty then
    (Except.error IAPError.PurchaseRequestRejected, [])
  else
    (Except.ok (), [StoreCall.purchaseCall intent.skus intent.type intent.subscriptionOffers])

/-- Catalog Sync cached state (spec §2: "caches last-fetched result"). -/
structure CatalogState where
  productCache : List ProductDescriptor
  subscriptionCache : List SubscriptionDescriptor
deriving DecidableEq, Repr

/-- Modelled from the spec: a successful `fetchProducts` fully replaces the
cached product list (§4.2 "Result replaces any previously cached list for that
category entirely — never appends"); a failed fetch leaves the cache alone. -/
def applyFetchProducts (cs : CatalogState) (conn : ConnectionState)
    (store : String → Option ProductDescriptor) (ids : List String) :
    Except IAPError (List ProductDescriptor) × CatalogState × List StoreCall :=
  match fetchProducts conn store ids with
  | (Except.ok ps, calls) => (Except.ok ps, { cs with productCache := ps }, calls)
  | (Except.error e, calls) => (Except.error e, cs, calls)

/-- Modelled from the spec: the subscription counterpart of
`applyFetchProducts` (§4.2, full replacement of the subscription cache). -/
def applyFetchSubscriptions (cs : CatalogState) (conn : ConnectionState)
    (store : String → Option SubscriptionDescriptor) (ids : List String) :
    Except IAPError (List SubscriptionDescriptor) × CatalogState × List StoreCall :=
  match fetchSubscriptions conn store ids with
  | (Except.ok ss, calls) => (Except.ok ss, { cs with subscriptionCache := ss }, calls)
  | (Except.error e, calls) => (Except.error e, cs, calls)

/-- PurchaseResult from spec §3: union Success(purchase record) / Error(reason),
delivered asynchronously via the event channel. -/
inductive PurchaseResult
  | success (purchase : String)
  | failure (reason : String)
deriving DecidableEq, Repr

/-- Modelled from the spec: the dispatcher-side state of the purchase
request/result correlation protocol (§4.3, §4.4).  `pending` holds intents
that were handed to the store but whose result has not yet been delivered on
the event channel; `delivered` is the ordered list of results emitted on the
channel; `dispatched` counts accepted `requestPurchase` calls. -/
structure DispatcherState where
  conn : ConnectionState
  platform : StorePlatform
  pending : List PurchaseIntent
  delivered : List (PurchaseIntent × PurchaseResult)
  dispatched : Nat
deriving DecidableEq, Repr

/-- An action of the dispatch/delivery protocol: the driver dispatches an
intent, or the store asynchronously delivers the result for the oldest
pending dispatch. -/
inductive DispatchAction
  | dispatch (intent : PurchaseIntent)
  | deliver (result : PurchaseResult)
deriving DecidableEq, Repr

/-- Modelled from the spec: one protocol step (§4.3 fire-and-forget dispatch,
§4.4 asynchronous delivery).  A dispatch accepted by `requestPurchase` adds
the intent to `pending` and returns — it never touches `delivered`.  A store
delivery moves exactly one pending dispatch to `delivered`. -/
def dispatchStep (s : DispatcherState) : DispatchAction → DispatcherState
  | DispatchAction.dispatch intent =>
    match requestPurchase s.conn s.platform intent with
    | (Except.ok _, _) =>
      { s with pending := s.pending ++ [intent], dispatched := s.dispatched + 1 }
    | (Except.error _, _) => s
  | DispatchAction.deliver result =>
    match s.pending with
    | [] => s
    | intent :: rest =>
      { s with pending := rest, delivered := s.delivered ++ [(intent, result)] }

/-- Run a sequence of protocol actions from a state. -/
def runDispatcher (s : DispatcherState) (acts : List DispatchAction) : DispatcherState :=
  acts.foldl dispatchStep s

/-- The dispatcher state before any dispatch, on a given connection state and
platform. -/
def initDispatcher (conn : ConnectionState) (platform : StorePlatform) : DispatcherState :=
  { conn := conn, platform := platform, pending := [], delivered := [], dispatched := 0 }

/-- An event emitted by the store on the purchase event channel (spec §4.4):
purchase results and out-of-band sync errors. -/
inductive ChannelEvent
  | purchaseEvent (result : PurchaseResult)
  | syncErrorEvent (reason : String)
deriving DecidableEq, Repr

/-- Modelled from the spec: the Purchase Event Channel (§4.4, §5) as a
broadcast log.  `log` is the ordered list of events the store has emitted in
this session; each listener (indexed by `Nat`) has a cursor into the log and a
list of `(position, event)` pairs it has received so far. -/
structure ChannelState where
  log : List ChannelEvent
  cursor : Nat → Nat
  received : Nat → List (Nat × ChannelEvent)

/-- An action on the event channel: the store emits an event, or the channel
delivers the next undelivered event to one listener. -/
inductive ChannelAction
  | emit (e : ChannelEvent)
  | deliver (listener : Nat)

/-- Modelled from the spec: one channel step (§4.4 "events are delivered in
the order the underlying store emits them; no reordering or coalescing"; §5
"a broadcast, not a single-consumer queue").  Emission appends to the log;
delivery hands listener `j` the event at its cursor, if any, and advances the
cursor — each log position is delivered at most once per listener. -/
def channelStep (s : ChannelState) : ChannelAction → ChannelState
  | ChannelAction.emit e => { s with log := s.log ++ [e] }
  | ChannelAction.deliver j =>
    match s.log[s.cursor j]? with
    | none => s
    | some e =>
      { s with
        cursor := fun k => if k = j then s.cursor j + 1 else s.cursor k,
        received := fun k =>
          if k = j then s.received j ++ [(s.cursor j, e)] else s.received k }

/-- Run a sequence of channel actions from a state. -/
def runChannel (s : ChannelState) (acts : List ChannelAction) : ChannelState :=
  acts.foldl channelStep s

/-- The channel state at the start of a session: empty log, every listener at
cursor 0 with nothing received. -/
def initChannel : ChannelState :=
  { log := [], cursor := fun _ => 0, received := fun _ => [] }

/-- ValidationResult from spec §3 / App.tsx lines 135-137:
{isValid, optional receiptData, optional jwsRepresentation}. -/
structure ValidationResult where
  isValid : Bool
  receiptData : Option String
  jwsRepresentation : Option String
deriving DecidableEq, Repr

/-- The outcome of a receipt validation call (spec §4.5:
`Idle -> Validating -> {Valid, Invalid, Indeterminate}`). -/
inductive ValidationOutcome
  | Valid (result : ValidationResult)
  | Invalid (result : ValidationResult)
  | Indeterminate (reason : String)
deriving DecidableEq, Repr

/-- Modelled from the spec: Receipt Validator `validate` (§4.5) — the library
implementation is not in the source tree.  On ios the local signed receipt
store (modelled as a partial map from product id to (verdict, receipt blob,
JWS blob)) decides Valid/Invalid.  On android the client lacks the external
parameters (packageName, productToken, accessToken) and always returns
Indeterminate with an explanatory reason, never fabricating a result. -/
def validate (platform : StorePlatform)
    (localReceipt : String → Option (Bool × Option String × Option String))
    (productId : String) : ValidationOutcome :=
  match platform with
  | StorePlatform.ios =>
    match localReceipt productId with
    | some (true, rd, jws) => ValidationOutcome.Valid ⟨true, rd, jws⟩
    | some (false, rd, jws) => ValidationOutcome.Invalid ⟨false, rd, jws⟩
    | none => ValidationOutcome.Invalid ⟨false, none, none⟩
  | StorePlatform.android =>
    ValidationOutcome.Indeterminate
      "validation requires external parameters: packageName, productToken, accessToken"

/-- The fixed product SKU list of App.tsx lines 17-22. -/
def productSkus : List String :=
  ["cpk.points.1000", "cpk.points.5000", "cpk.points.10000", "cpk.points.30000"]

/-- The fixed subscription SKU list of App.tsx lines 24-27. -/
def subscriptionSkus : List String :=
  ["cpk.membership.monthly.bronze", "cpk.membership.monthly.silver"]

/-- The three UI operations of App.tsx line 29. -/
inductive Operation
  | getProducts
  | getSubscriptions
  | validateReceipt
deriving DecidableEq, Repr

/-- An alert surfaced to the user by App.tsx. -/
inductive AlertMsg
  | notConnectedAlert
  | noProductsAlert
  | operationError (op : Operation) (message : String)
  | iosValidationAlert (result : ValidationResult)
  | androidValidationInfo
deriving DecidableEq, Repr

/-- An underlying `useIAP` operation actually invoked by `handleOperation`. -/
inductive InvokedOp
  | getProductsOp (ids : List String)
  | getSubscriptionsOp (ids : List String)
  | validateReceiptOp (productId : String)
deriving DecidableEq, Repr

/-- The environment `handleOperation` runs against: the host platform and the
outcomes the `useIAP` operations would produce if invoked (an `Except.error`
models the awaited call throwing). -/
structure OpEnv where
  platform : StorePlatform
  getProductsResult : Except String Unit
  getSubscriptionsResult : Except String Unit
  validateReceiptResult : String → Except String ValidationResult

/-- The observable outcome of one `handleOperation` call: alerts shown (in
order), underlying operations invoked (in order), and the value
`setValidationResult` was last called with (`none` when it was not called). -/
structure OpOutcome where
  alerts : List AlertMsg
  invoked : List InvokedOp
  validationSet : Option (Option ValidationResult)
deriving DecidableEq, Repr

/-- `handleOperation` from App.tsx lines 104-155.  Guard: when not connected
it alerts Not Connected and returns without invoking anything.  Each branch of
the switch awaits the corresponding `useIAP` operation inside try/catch; a
thrown error is caught and alerted, never rethrown.  The validateReceipt
branch picks the first cached product (else first subscription) id, alerts No
Products when neither exists, calls `setValidationResult(null)`, then on ios
awaits `validateReceipt` and alerts its result, and on android only alerts the
required-server-parameters notice without invoking validation. -/
def handleOperation (env : OpEnv) (connected : Bool)
    (products : List ProductDescriptor) (subscriptions : List SubscriptionDescriptor)
    (op : Operation) : OpOutcome :=
  if !connected then
    { alerts := [AlertMsg.notConnectedAlert], invoked := [], validationSet := none }
  else
    match op with
    | Operation.getProducts =>
      match env.getProductsResult with
      | Except.ok _ =>
        { alerts := [], invoked := [InvokedOp.getProductsOp productSkus],
          validationSet := none }
      | Except.error m =>
        { alerts := [AlertMsg.operationError Operation.getProducts m],
          invoked := [InvokedOp.getProductsOp productSkus], validationSet := none }
    | Operation.getSubscriptions =>
      match env.getSubscriptionsResult with
      | Except.ok _ =>
        { alerts := [], invoked := [InvokedOp.getSubscriptionsOp subscriptionSkus],
          validationSet := none }
      | Except.error m =>
        { alerts := [AlertMsg.operationError Operation.getSubscriptions m],
          invoked := [InvokedOp.getSubscriptionsOp subscriptionSkus],
          validationSet := none }
    | Operation.validateReceipt =>
      match (products.head?.map (fun p => p.id)).orElse
          (fun _ => subscriptions.head?.map (fun s => s.id)) with
      | none =>
        { alerts := [AlertMsg.noProductsAlert], invoked := [], validationSet := none }
      | some pid =>
        match env.platform with
        | StorePlatform.ios =>
          match env.validateReceiptResult pid with
          | Except.ok r =>
            { alerts := [AlertMsg.iosValidationAlert r],
              invoked := [InvokedOp.validateReceiptOp pid],
              validationSet := some (some r) }
          | Except.error m =>
            { alerts := [AlertMsg.operationError Operation.validateReceipt m],
              invoked := [InvokedOp.validateReceiptOp pid],
              validationSet := some none }
        | StorePlatform.android =>
          { alerts := [AlertMsg.androidValidationInfo], invoked := [],
            validationSet := some none }

/-- The App component state relevant to the claims: the hook connected flag,
the driver ready flag (App.tsx line 34), the sync-error banner state (line
33), and the cached catalogs delivered by the hook. -/
structure AppState where
  connected : Bool
  isReady : Bool
  syncError : Option String
  products : List ProductDescriptor
  subscriptions : List SubscriptionDescriptor
deriving DecidableEq, Repr

/-- `initializeIAP` from App.tsx lines 72-87: runs only when connected
(`if (!connected) return`); awaits Promise.all of the two fetches, and only
when both succeed stores their results and sets `isReady`; on error nothing is
set (the error is logged). -/
def initializeIAP (s : AppState)
    (fetchP : Except IAPError (List ProductDescriptor))
    (fetchS : Except IAPError (List SubscriptionDescriptor)) : AppState :=
  if !s.connected then s
  else
    match fetchP, fetchS with
    | Except.ok ps, Except.ok ss =>
      { s with products := ps, subscriptions := ss, isReady := true }
    | _, _ => s

/-- An event the App component reacts to by updating its state. -/
inductive AppAction
  | connectionChanged (connected : Bool)
  | initResult (fetchP : Except IAPError (List ProductDescriptor))
      (fetchS : Except IAPError (List SubscriptionDescriptor))
  | syncErrorEvent (reason : String)
  | ackSyncError
deriving Repr

/-- The App state transitions of App.tsx: connection changes come from the
hook; `initResult` is the completion of `initializeIAP`; `onSyncError` (lines
58-68) calls `setSyncError(error)`; pressing OK on the sync-error alert (line
65) calls `setSyncError(null)`. -/
def appStep (s : AppState) : AppAction → AppState
  | AppAction.connectionChanged b => { s with connected := b }
  | AppAction.initResult fp fs => initializeIAP s fp fs
  | AppAction.syncErrorEvent reason => { s with syncError := some reason }
  | AppAction.ackSyncError => { s with syncError := none }

/-- What the content area of the App renders (App.tsx lines 194-298): the
Not-connected text, the Loading text, or the catalog with its purchase
buttons. -/
inductive ContentView
  | notConnectedText
  | loadingText
  | catalog (products : List ProductDescriptor) (subscriptions : List SubscriptionDescriptor)
deriving DecidableEq, Repr

/-- The render guard of App.tsx lines 195-199:
`!connected ? <Not connected> : !isReady ? <Loading> : <catalog>`.  Purchase
buttons exist only inside the catalog view. -/
def renderContent (s : AppState) : ContentView :=
  if !s.connected then ContentView.notConnectedText
  else if !s.isReady then ContentView.loadingText
  else ContentView.catalog s.products s.subscriptions

/-- The android Subscribe button callback of App.tsx lines 256-271: it builds
the purchase intent with `skus := [item.id]`, `type := 'subs'`, and
`subscriptionOffers` holding the selected offer's token when present and the
empty list when the offer carries no token. -/
def androidSubscribeIntent (item : SubscriptionDescriptor) (offer : OfferDetail) :
    PurchaseIntent :=
  { skus := [item.id],
    type := PurchaseType.subs,
    subscriptionOffers :=
      match offer.offerToken with
      | some tok => [{ sku := item.id, offerToken := tok }]
      | none => [] }

/-- C1: for every connection state other than Connected, fetchProducts,
fetchSubscriptions and requestPurchase fail synchronously with NotConnected
and issue no store-network call; and the example driver's `handleOperation`
guard likewise alerts Not Connected and invokes nothing while disconnected. -/
theorem c1_not_connected_rejects (conn : ConnectionState)
    (h : conn ≠ ConnectionState.Connected) :
    (∀ (store : String → Option ProductDescriptor) (ids : List String),
      fetchProducts conn store ids = (Except.error IAPError.NotConnected, [])) ∧
    (∀ (store : String → Option SubscriptionDescriptor) (ids : List String),
      fetchSubscriptions conn store ids = (Except.error IAPError.NotConnected, [])) ∧
    (∀ (platform : StorePlatform) (intent : PurchaseIntent),
      requestPurchase conn platform intent = (Except.error IAPError.NotConnected, [])) ∧
    (∀ (env : OpEnv) (products : List ProductDescriptor)
        (subscriptions : List SubscriptionDescriptor) (op : Operation),
      handleOperation env false products subscriptions op =
        { alerts := [AlertMsg.notConnectedAlert], invoked := [], validationSet := none }) := by
  refine ⟨?_, ?_, ?_, ?_⟩ <;> intros <;>
    simp [fetchProducts, fetchSubscriptions, requestPurchase, handleOperation, h]

/-- C1 witness: at the concrete disconnected state, fetching the example
product SKUs fails with NotConnected and makes no store call. -/
theorem c1_not_connected_rejects_witness :
    fetchProducts ConnectionState.Disconnected (fun _ => none) productSkus =
      (Except.error IAPError.NotConnected, []) :=
  (c1_not_connected_rejects ConnectionState.Disconnected (by decide)).1 (fun _ => none)
    productSkus

/-- C2: on android — the platform lacking local signed-receipt data —
`validate` returns Indeterminate with an explanatory reason for every product
id and every local receipt store, never Valid and never Invalid; and the
example driver's android validateReceipt branch invokes no validation call,
only showing the required-server-parameters notice. -/
theorem c2_android_validate_indeterminate :
    (∀ (localReceipt : String → Option (Bool × Option String × Option String))
        (productId : String),
      validate StorePlatform.android localReceipt productId =
        ValidationOutcome.Indeterminate
          "validation requires external parameters: packageName, productToken, accessToken") ∧
    (∀ (localReceipt : String → Option (Bool × Option String × Option String))
        (productId : String) (r : ValidationResult),
      validate StorePlatform.android localReceipt productId ≠ ValidationOutcome.Valid r) ∧
    (∀ (localReceipt : String → Option (Bool × Option String × Option String))
        (productId : String) (r : ValidationResult),
      validate StorePlatform.android localReceipt productId ≠ ValidationOutcome.Invalid r) ∧
    (∀ (gp gs : Except String Unit) (vr : String → Except String ValidationResult)
        (p : ProductDescriptor) (ps : List ProductDescriptor)
        (ss : List SubscriptionDescriptor),
      handleOperation ⟨StorePlatform.android, gp, gs, vr⟩ true (p :: ps) ss
          Operation.validateReceipt =
        { alerts := [AlertMsg.androidValidationInfo], invoked := [],
          validationSet := some none }) := by
  refine ⟨fun _ _ => rfl, fun _ _ _ => by simp [validate], fun _ _ _ => by simp [validate],
    fun gp gs vr p ps ss => ?_⟩
  simp [handleOperation, Option.orElse]

/-- C2 witness: the android validator at a concrete product id is
Indeterminate. -/
theorem c2_android_validate_indeterminate_witness :
    validate StorePlatform.android (fun _ => none) "cpk.points.1000" =
      ValidationOutcome.Indeterminate
        "validation requires external parameters: packageName, productToken, accessToken" :=
  c2_android_validate_indeterminate.1 (fun _ => none) "cpk.points.1000"

/-- C4: an android subscription purchase intent with no offer token is
rejected synchronously with PurchaseRequestRejected and no store call is
issued; in particular the intent the example Subscribe button builds from an
offer lacking its token is so rejected rather than dispatched with the offer
omitted. -/
theorem c4_missing_offer_token_rejected :
    (∀ (skus : List String),
      requestPurchase ConnectionState.Connected StorePlatform.android
          { skus := skus, type := PurchaseType.subs, subscriptionOffers := [] } =
        (Except.error IAPError.PurchaseRequestRejected, [])) ∧
    (∀ (item : SubscriptionDescriptor) (offer : OfferDetail),
      offer.offerToken = none →
      requestPurchase ConnectionState.Connected StorePlatform.android
          (androidSubscribeIntent item offer) =
        (Except.error IAPError.PurchaseRequestRejected, [])) := by
  constructor
  · intro skus
    simp [requestPurchase, requiresOfferToken]
  · intro item offer h
    simp [requestPurchase, requiresOfferToken, androidSubscribeIntent, h]

/-- C4 witness: the concrete token-less offer of a concrete subscription is
rejected with PurchaseRequestRejected and no store call. -/
theorem c4_missing_offer_token_rejected_witness :
    requestPurchase ConnectionState.Connected StorePlatform.android
        (androidSubscribeIntent
          { id := "cpk.membership.monthly.bronze", title := "Bronze",
            platform := StorePlatform.android, price := "$1",
            subscriptionOfferDetails := [] }
          { offerId := "offer1", offerToken := none, pricingPhaseList := [] }) =
      (Except.error IAPError.PurchaseRequestRejected, []) :=
  c4_missing_offer_token_rejected.2
    { id := "cpk.membership.monthly.bronze", title := "Bronze",
      platform := StorePlatform.android, price := "$1", subscriptionOfferDetails := [] }
    { offerId := "offer1", offerToken := none, pricingPhaseList := [] } rfl

/-- C7: fetching the empty SKU list while connected succeeds with the empty
descriptor list for both fetchProducts and fetchSubscriptions — never an
error. -/
theorem c7_empty_fetch_succeeds
    (storeP : String → Option ProductDescriptor)
    (storeS : String → Option SubscriptionDescriptor) :
    fetchProducts ConnectionState.Connected storeP [] =
      (Except.ok [], [StoreCall.fetchProductsCall []]) ∧
    fetchSubscriptions ConnectionState.Connected storeS [] =
      (Except.ok [], [StoreCall.fetchSubscriptionsCall []]) :=
  ⟨rfl, rfl⟩

/-- C5: a successful fetch fully replaces the cached list for its category:
the new cache equals exactly the fetched list, the other category's cache is
untouched, and every previously cached descriptor absent from the new fetch is
gone — even when the new set is a strict subset of the old one. -/
theorem c5_fetch_replaces_cache (cs : CatalogState) (conn : ConnectionState)
    (storeP : String → Option ProductDescriptor)
    (storeS : String → Option SubscriptionDescriptor) (ids : List String) :
    (∀ ps cs2 calls, applyFetchProducts cs conn storeP ids = (Except.ok ps, cs2, calls) →
      cs2.productCache = ps ∧ cs2.subscriptionCache = cs.subscriptionCache ∧
      ∀ d, d ∈ cs.productCache → d ∉ ps → d ∉ cs2.productCache) ∧
    (∀ ss cs2 calls, applyFetchSubscriptions cs conn storeS ids = (Except.ok ss, cs2, calls) →
      cs2.subscriptionCache = ss ∧ cs2.productCache = cs.productCache ∧
      ∀ d, d ∈ cs.subscriptionCache → d ∉ ss → d ∉ cs2.subscriptionCache) := by
  constructor
  · intro ps cs2 calls h
    by_cases hc : conn = ConnectionState.Connected
    · simp [applyFetchProducts, fetchProducts, hc] at h
      obtain ⟨hps, hcs, -⟩ := h
      subst hcs
      simp [← hps]
    · simp [applyFetchProducts, fetchProducts, hc] at h
  · intro ss cs2 calls h
    by_cases hc : conn = ConnectionState.Connected
    · simp [applyFetchSubscriptions, fetchSubscriptions, hc] at h
      obtain ⟨hss, hcs, -⟩ := h
      subst hcs
      simp [← hss]
    · simp [applyFetchSubscriptions, fetchSubscriptions, hc] at h

/-- A sample android points product used by concrete witnesses. -/
def sampleP1 : ProductDescriptor :=
  ⟨"cpk.points.1000", "P1", StorePlatform.ios, "$1"⟩

/-- A second sample product used by concrete witnesses. -/
def sampleP2 : ProductDescriptor :=
  ⟨"cpk.points.5000", "P2", StorePlatform.ios, "$2"⟩

/-- A sample store that only knows `sampleP1`. -/
def sampleStore : String → Option ProductDescriptor :=
  fun id => if id = "cpk.points.1000" then some sampleP1 else none

/-- C5 witness: with a two-descriptor cache and a store that only knows the
first SKU, refetching both SKUs leaves a cache of exactly the one fetched
descriptor and the stale second descriptor is gone. -/
theorem c5_fetch_replaces_cache_witness :
    (⟨[sampleP1], []⟩ : CatalogState).productCache = [sampleP1] ∧
    sampleP2 ∉ (⟨[sampleP1], []⟩ : CatalogState).productCache := by
  have h :=
    (c5_fetch_replaces_cache (⟨[sampleP1, sampleP2], []⟩ : CatalogState)
      ConnectionState.Connected sampleStore (fun _ => none)
      ["cpk.points.1000", "cpk.points.5000"]).1
      [sampleP1] (⟨[sampleP1], []⟩ : CatalogState)
      [StoreCall.fetchProductsCall ["cpk.points.1000", "cpk.points.5000"]]
      (by simp [applyFetchProducts, fetchProducts, sampleStore, sampleP1, sampleP2])
  refine ⟨h.1, h.2.2 _ (by simp) ?_⟩
  simp [sampleP1, sampleP2]

/-- C6: the sync-error banner state of the example driver: an emitted sync
error makes the state active; every app transition other than the explicit
acknowledgment keeps it active; acknowledgment clears it; and acknowledging
again leaves the cleared state unchanged (idempotent acknowledge). -/
theorem c6_sync_error_until_ack :
    (∀ (s : AppState) (reason : String),
      ((appStep s (AppAction.syncErrorEvent reason)).syncError).isSome = true) ∧
    (∀ (s : AppState) (a : AppAction), a ≠ AppAction.ackSyncError →
      s.syncError.isSome = true → ((appStep s a).syncError).isSome = true) ∧
    (∀ s : AppState, (appStep s AppAction.ackSyncError).syncError = none) ∧
    (∀ s : AppState,
      appStep (appStep s AppAction.ackSyncError) AppAction.ackSyncError =
        appStep s AppAction.ackSyncError) := by
  refine ⟨fun s reason => rfl, ?_, fun s => rfl, fun s => rfl⟩
  intro s a ha hs
  cases a with
  | connectionChanged b => simpa [appStep] using hs
  | initResult fp fs =>
    have : (initializeIAP s fp fs).syncError = s.syncError := by
      unfold initializeIAP
      cases hc : s.connected
      · simp
      · cases fp <;> cases fs <;> simp
    simpa [appStep, this] using hs
  | syncErrorEvent reason => simp [appStep]
  | ackSyncError => exact absurd rfl ha

/-- C6 witness: with an active sync error, a connection change keeps the
error active at a concrete state. -/
theorem c6_sync_error_until_ack_witness :
    ((appStep
        { connected := true, isReady := true, syncError := some "auth required",
          products := [], subscriptions := [] }
        (AppAction.connectionChanged false)).syncError).isSome = true :=
  c6_sync_error_until_ack.2.1
    { connected := true, isReady := true, syncError := some "auth required",
      products := [], subscriptions := [] }
    (AppAction.connectionChanged false) (fun h => AppAction.noConfusion h) rfl

/-- C9: the driver's ready flag can only turn true through an `initResult`
transition in which both the product fetch and the subscription fetch
succeeded (and the driver was connected); and the catalog view — the only
place with purchase buttons — renders only when both connected and ready are
true. -/
theorem c9_ready_gates_purchase_ui :
    (∀ (s : AppState) (a : AppAction), s.isReady = false → (appStep s a).isReady = true →
      s.connected = true ∧
      ∃ ps ss, a = AppAction.initResult (Except.ok ps) (Except.ok ss)) ∧
    (∀ (s : AppState) (ps : List ProductDescriptor) (ss : List SubscriptionDescriptor),
      renderContent s = ContentView.catalog ps ss →
      s.connected = true ∧ s.isReady = true) := by
  constructor
  · intro s a h0 h1
    cases a with
    | connectionChanged b => simp [appStep, h0] at h1
    | syncErrorEvent reason => simp [appStep, h0] at h1
    | ackSyncError => simp [appStep, h0] at h1
    | initResult fp fs =>
      unfold appStep initializeIAP at h1
      cases hc : s.connected with
      | false => rw [hc] at h1; simp [h0] at h1
      | true =>
        rw [hc] at h1
        cases fp with
        | error e => simp [h0] at h1
        | ok ps =>
          cases fs with
          | error e => simp [h0] at h1
          | ok ss => exact ⟨rfl, ps, ss, rfl⟩
  · intro s ps ss h
    unfold renderContent at h
    cases hc : s.connected with
    | false => rw [hc] at h; simp at h
    | true =>
      rw [hc] at h
      cases hr : s.isReady with
      | false => rw [hr] at h; simp at h
      | true => exact ⟨rfl, rfl⟩

/-- C9 witness: from a connected, not-yet-ready state, the transition that
turns the ready flag on is an `initResult` whose two fetches both succeeded. -/
theorem c9_ready_gates_purchase_ui_witness :
    ({ connected := true, isReady := false, syncError := none,
       products := [], subscriptions := [] } : AppState).connected = true ∧
    ∃ ps ss, AppAction.initResult (Except.ok [sampleP1]) (Except.ok ([] : List SubscriptionDescriptor)) =
      AppAction.initResult (Except.ok ps) (Except.ok ss) :=
  c9_ready_gates_purchase_ui.1
    { connected := true, isReady := false, syncError := none,
      products := [], subscriptions := [] }
    (AppAction.initResult (Except.ok [sampleP1]) (Except.ok [])) rfl rfl

/-- C10: `handleOperation` is total (modelled as a plain function into
`OpOutcome`, every thrown error having been caught): while disconnected it
returns only the Not Connected alert and invokes nothing; an error thrown by
getProducts, getSubscriptions or validateReceipt is surfaced as the
corresponding operation-error alert; and the validateReceipt branch with no
cached descriptor returns the No Products alert without invoking anything. -/
theorem c10_handle_operation_total :
    (∀ (env : OpEnv) (products : List ProductDescriptor)
        (subscriptions : List SubscriptionDescriptor) (op : Operation),
      handleOperation env false products subscriptions op =
        { alerts := [AlertMsg.notConnectedAlert], invoked := [], validationSet := none }) ∧
    (∀ (env : OpEnv) (products : List ProductDescriptor)
        (subscriptions : List SubscriptionDescriptor) (m : String),
      env.getProductsResult = Except.error m →
      (handleOperation env true products subscriptions Operation.getProducts).alerts =
        [AlertMsg.operationError Operation.getProducts m]) ∧
    (∀ (env : OpEnv) (products : List ProductDescriptor)
        (subscriptions : List SubscriptionDescriptor) (m : String),
      env.getSubscriptionsResult = Except.error m →
      (handleOperation env true products subscriptions Operation.getSubscriptions).alerts =
        [AlertMsg.operationError Operation.getSubscriptions m]) ∧
    (∀ (env : OpEnv) (p : ProductDescriptor) (ps : List ProductDescriptor)
        (subscriptions : List SubscriptionDescriptor) (m : String),
      env.platform = StorePlatform.ios →
      env.validateReceiptResult p.id = Except.error m →
      (handleOperation env true (p :: ps) subscriptions Operation.validateReceipt).alerts =
        [AlertMsg.operationError Operation.validateReceipt m]) ∧
    (∀ env : OpEnv,
      handleOperation env true [] [] Operation.validateReceipt =
        { alerts := [AlertMsg.noProductsAlert], invoked := [], validationSet := none }) := by
  refine ⟨fun env products subscriptions op => by simp [handleOperation],
    fun env products subscriptions m h => by simp [handleOperation, h],
    fun env products subscriptions m h => by simp [handleOperation, h],
    fun env p ps subscriptions m hplat hv => ?_,
    fun env => by simp [handleOperation, Option.orElse]⟩
  simp [handleOperation, Option.orElse, hplat, hv]

/-- C10 witness: at a concrete environment whose getProducts call throws,
`handleOperation` surfaces the error as an alert. -/
theorem c10_handle_operation_total_witness :
    (handleOperation
        ⟨StorePlatform.ios, Except.error "network down", Except.ok (),
          fun _ => Except.ok ⟨true, none, none⟩⟩
        true [] [] Operation.getProducts).alerts =
      [AlertMsg.operationError Operation.getProducts "network down"] :=
  c10_handle_operation_total.2.1
    ⟨StorePlatform.ios, Except.error "network down", Except.ok (),
      fun _ => Except.ok ⟨true, none, none⟩⟩
    [] [] "network down" rfl

/-- Each accepted dispatch is balanced by exactly one (eventual) delivery:
results delivered plus dispatches still pending equal dispatches accepted. -/
def dispatcherBalanced (s : DispatcherState) : Prop :=
  s.delivered.length + s.pending.length = s.dispatched

lemma dispatchStep_balanced (s : DispatcherState) (a : DispatchAction)
    (h : dispatcherBalanced s) : dispatcherBalanced (dispatchStep s a) := by
  cases a with
  | dispatch intent =>
    simp only [dispatchStep]
    rcases hr : requestPurchase s.conn s.platform intent with ⟨res, calls⟩
    cases res with
    | ok u =>
      simp only [dispatcherBalanced, List.length_append, List.length_cons,
        List.length_nil] at h ⊢
      omega
    | error e => exact h
  | deliver result =>
    simp only [dispatchStep]
    unfold dispatcherBalanced at h ⊢
    cases hp : s.pending with
    | nil => exact h
    | cons intent rest =>
      rw [hp] at h
      simp only [List.length_append, List.length_cons, List.length_nil] at h ⊢
      omega

lemma runDispatcher_balanced (acts : List DispatchAction) (s : DispatcherState)
    (h : dispatcherBalanced s) : dispatcherBalanced (runDispatcher s acts) := by
  induction acts generalizing s with
  | nil => exact h
  | cons a rest ih =>
    rw [runDispatcher, List.foldl_cons]
    exact ih (dispatchStep s a) (dispatchStep_balanced s a h)

/-- C3: the dispatch/delivery protocol is fire-and-forget with exactly-once
delivery: in every run from the initial dispatcher state, delivered results
plus still-pending dispatches equal accepted dispatches (each dispatch is
matched by exactly one delivery, and deliveries never exceed dispatches); a
dispatch step never adds anything to the delivered event list (no result is
returned synchronously from dispatch); and no delivery happens without a
pending dispatch. -/
theorem c3_dispatch_fire_and_forget :
    (∀ (conn : ConnectionState) (platform : StorePlatform) (acts : List DispatchAction),
      (runDispatcher (initDispatcher conn platform) acts).delivered.length +
        (runDispatcher (initDispatcher conn platform) acts).pending.length =
        (runDispatcher (initDispatcher conn platform) acts).dispatched) ∧
    (∀ (s : DispatcherState) (intent : PurchaseIntent),
      (dispatchStep s (DispatchAction.dispatch intent)).delivered = s.delivered) ∧
    (∀ (s : DispatcherState) (result : PurchaseResult), s.pending = [] →
      dispatchStep s (DispatchAction.deliver result) = s) := by
  refine ⟨?_, ?_, ?_⟩
  · intro conn platform acts
    exact runDispatcher_balanced acts (initDispatcher conn platform) rfl
  · intro s intent
    simp only [dispatchStep]
    rcases hr : requestPurchase s.conn s.platform intent with ⟨res, calls⟩
    cases res <;> rfl
  · intro s result h
    simp only [dispatchStep]
    rw [h]

/-- C3 witness: at the initial dispatcher state (nothing pending), a store
delivery is a no-op. -/
theorem c3_dispatch_fire_and_forget_witness :
    dispatchStep (initDispatcher ConnectionState.Connected StorePlatform.ios)
        (DispatchAction.deliver (PurchaseResult.success "p")) =
      initDispatcher ConnectionState.Connected StorePlatform.ios :=
  c3_dispatch_fire_and_forget.2.2
    (initDispatcher ConnectionState.Connected StorePlatform.ios)
    (PurchaseResult.success "p") rfl

/-- The channel invariant: each listener's cursor stays within the log, the
positions it has received are exactly `0, 1, ..., cursor - 1` in order, and
the events it has received are exactly the log prefix up to its cursor. -/
def channelOk (s : ChannelState) : Prop :=
  ∀ j, s.cursor j ≤ s.log.length ∧
    (s.received j).map Prod.fst = List.range (s.cursor j) ∧
    (s.received j).map Prod.snd = s.log.take (s.cursor j)

lemma channelStep_ok (s : ChannelState) (a : ChannelAction) (h : channelOk s) :
    channelOk (channelStep s a) := by
  cases a with
  | emit e =>
    intro j
    obtain ⟨h1, h2, h3⟩ := h j
    refine ⟨?_, h2, ?_⟩
    · simp only [channelStep, List.length_append, List.length_cons, List.length_nil]
      omega
    · simp only [channelStep]
      rw [List.take_append_of_le_length h1]
      exact h3
  | deliver j0 =>
    cases hl : s.log[s.cursor j0]? with
    | none =>
      intro j
      simp only [channelStep, hl]
      exact h j
    | some e =>
      intro j
      simp only [channelStep, hl]
      by_cases hj : j = j0
      · subst hj
        obtain ⟨h1, h2, h3⟩ := h j
        have hlt : s.cursor j < s.log.length := (List.getElem?_eq_some.mp hl).1
        refine ⟨by simp; omega, ?_, ?_⟩
        · simp [h2, List.range_succ]
        · simp [h3, List.take_succ, hl]
      · obtain ⟨h1, h2, h3⟩ := h j
        simp only [if_neg hj]
        exact ⟨h1, h2, h3⟩

lemma runChannel_ok (acts : List ChannelAction) (s : ChannelState) (h : channelOk s) :
    channelOk (runChannel s acts) := by
  induction acts generalizing s with
  | nil => exact h
  | cons a rest ih =>
    rw [runChannel, List.foldl_cons]
    exact ih (channelStep s a) (channelStep_ok s a h)

lemma initChannel_ok : channelOk initChannel :=
  fun _ => ⟨Nat.le_refl 0, rfl, rfl⟩

/-- C8: in every session run of the Purchase Event Channel, every listener
has received exactly a prefix of the store's emission log in emission order
(no reordering, no coalescing), and the log positions it received are
pairwise distinct — no event is delivered twice to the same listener. -/
theorem c8_channel_order_no_duplicates (acts : List ChannelAction) (j : Nat) :
    ((runChannel initChannel acts).received j).map Prod.snd =
      (runChannel initChannel acts).log.take ((runChannel initChannel acts).cursor j) ∧
    (((runChannel initChannel acts).received j).map Prod.fst).Nodup := by
  obtain ⟨h1, h2, h3⟩ := runChannel_ok acts initChannel initChannel_ok j
  exact ⟨h3, h2 ▸ List.nodup_range _⟩

end ExpoIAP
